import Mathlib

/-!
Verification of the OAuth 1.0a request signer and command dispatcher in
`agent-tools/scripts/twitter-api.py`.

The Python source is shallowly embedded: strings are Lean `String`s,
byte sequences are `List Nat` (each element < 256), Python dicts of
request parameters are association lists `List (String × String)`,
and the ambient randomness of `oauth_sign` (the Unix timestamp and the
hex nonce) is made an explicit pair of arguments.  Machine words inside
SHA-1 are `Nat` reduced modulo `2 ^ 32` explicitly.
-/

set_option linter.unusedVariables false

namespace TwitterApi

/-! ## Bytes and UTF-8 -/

/-- UTF-8 encoding of a single character, as its list of bytes.  Models the
byte-level view `str.encode()` that `urllib.parse.quote` and `hmac.new`
operate on. -/
def utf8EncodeChar (c : Char) : List Nat :=
  let n := c.toNat
  if n < 128 then [n]
  else if n < 2048 then
    [192 + n / 64, 128 + n % 64]
  else if n < 65536 then
    [224 + n / 4096, 128 + (n / 64) % 64, 128 + n % 64]
  else
    [240 + n / 262144, 128 + (n / 4096) % 64, 128 + (n / 64) % 64, 128 + n % 64]

/-- UTF-8 bytes of a string. -/
def utf8Bytes (s : String) : List Nat :=
  (s.data.map utf8EncodeChar).flatten

/-! ## Percent-encoding: `urllib.parse.quote(s, safe="")` -/

/-- RFC 3986 unreserved bytes: ASCII letters, digits, `-`, `.`, `_`, `~`.
These are exactly the bytes `urllib.parse.quote` never encodes; with
`safe=""` nothing else is exempt. -/
def isUnreserved (b : Nat) : Bool :=
  (48 ≤ b && b ≤ 57) || (65 ≤ b && b ≤ 90) || (97 ≤ b && b ≤ 122) ||
  b == 45 || b == 46 || b == 95 || b == 126

/-- Uppercase hexadecimal digit for a value below 16, as `quote` emits. -/
def hexDigitUpper (n : Nat) : Char :=
  if n < 10 then Char.ofNat (48 + n) else Char.ofNat (55 + n)

/-- Percent-encoding of one byte: kept literally when unreserved, else
`%XX` with uppercase hex. -/
def percentEncodeByte (b : Nat) : String :=
  if isUnreserved b then String.singleton (Char.ofNat b)
  else String.mk ['%', hexDigitUpper (b / 16), hexDigitUpper (b % 16)]

/-- Embedding of `urllib.parse.quote(s, safe="")`: percent-encode every
UTF-8 byte that is not RFC 3986 unreserved. -/
def percentEncode (s : String) : String :=
  String.join ((utf8Bytes s).map percentEncodeByte)

/-! ## Python `sorted` on dict items

`sorted(all_p.items())` sorts the `(key, value)` pairs by the default
tuple order: lexicographically by the RAW key string (code-point order),
ties broken by the raw value.  The keys are percent-encoded only after
sorting, in the join. -/

/-- Strict lexicographic comparison of character lists by code point,
the comparison Python applies to strings. -/
def charsLt : List Char → List Char → Bool
  | [], [] => false
  | [], _ :: _ => true
  | _ :: _, [] => false
  | c :: cs, d :: ds =>
      if c.toNat < d.toNat then true
      else if d.toNat < c.toNat then false
      else charsLt cs ds

/-- Python `a < b` on strings. -/
def strLt (a b : String) : Bool :=
  charsLt a.data b.data

/-- The non-strict tuple order `(k₁, v₁) ≤ (k₂, v₂)` that Python's
`sorted` arranges dict items by: raw key first, raw value as tiebreak. -/
def pairLeB (p q : String × String) : Bool :=
  if strLt p.1 q.1 then true
  else if strLt q.1 p.1 then false
  else !strLt q.2 p.2

/-- Propositional form of the dict-item order. -/
def pairLE (p q : String × String) : Prop :=
  pairLeB p q = true

instance : DecidableRel pairLE :=
  fun p q => inferInstanceAs (Decidable (pairLeB p q = true))

/-- Embedding of `sorted(all_p.items())`.  `List.insertionSort` returns
the sorted permutation; on the duplicate-free key sets of a Python dict
this is the unique sorted arrangement `sorted` produces. -/
def sortParams (l : List (String × String)) : List (String × String) :=
  l.insertionSort pairLE

/-- Python `{**base, **extra}`: keys of `extra` override those of `base`,
every key appears once (both operands come from dicts). -/
def mergeParams (base extra : List (String × String)) :
    List (String × String) :=
  base.filter (fun p => extra.all (fun q => q.1 ≠ p.1)) ++ extra

/-! ## SHA-1 (`hashlib.sha1`), HMAC (`hmac.new`), base64 (`base64.b64encode`)

A direct executable rendering of FIPS 180-1 SHA-1 over byte lists, the
RFC 2104 HMAC construction, and standard base64, as used by
`hmac.new(sk.encode(), bs.encode(), hashlib.sha1)` and
`base64.b64encode(...).digest()` in `oauth_sign`. -/

/-- Reduction of a `Nat` to a 32-bit word. -/
def w32 (n : Nat) : Nat := n % 4294967296

/-- Left rotation of a 32-bit word by `k` bits. -/
def rotl32 (k n : Nat) : Nat :=
  w32 ((n <<< k) + (n >>> (32 - k)))

/-- SHA-1 round function `f_t`. -/
def sha1F (t b c d : Nat) : Nat :=
  if t < 20 then (b &&& c) ||| ((b ^^^ 4294967295) &&& d)
  else if t < 40 then b ^^^ c ^^^ d
  else if t < 60 then (b &&& c) ||| (b &&& d) ||| (c &&& d)
  else b ^^^ c ^^^ d

/-- SHA-1 round constant `K_t`. -/
def sha1K (t : Nat) : Nat :=
  if t < 20 then 1518500249
  else if t < 40 then 1859775393
  else if t < 60 then 2400959708
  else 3395469782

/-- Big-endian byte decomposition of `n` into `k` bytes. -/
def beBytes : Nat → Nat → List Nat
  | 0, _ => []
  | k + 1, n => beBytes k (n / 256) ++ [n % 256]

/-- SHA-1 padding: append `0x80`, zeros to 56 mod 64, then the bit length
as 8 big-endian bytes. -/
def sha1Pad (msg : List Nat) : List Nat :=
  let zeros := (120 - (msg.length + 1) % 64) % 64
  msg ++ [128] ++ List.replicate zeros 0 ++ beBytes 8 (8 * msg.length)

/-- Big-endian packing of bytes into 32-bit words, four at a time. -/
def bytesToWords : List Nat → List Nat
  | a :: b :: c :: d :: rest =>
      (((a * 256 + b) * 256 + c) * 256 + d) :: bytesToWords rest
  | _ => []

/-- Splitting a word list into 16-word blocks; the first argument is fuel
(at least the list length). -/
def chunk16 : Nat → List Nat → List (List Nat)
  | 0, _ => []
  | _, [] => []
  | fuel + 1, l => l.take 16 :: chunk16 fuel (l.drop 16)

/-- Message-schedule expansion: from the sliding window of the last 16
words, produce the next `k` words `W_t = ROTL1(W_{t-3} ⊕ W_{t-8} ⊕
W_{t-14} ⊕ W_{t-16})`. -/
def sha1Expand : Nat → List Nat → List Nat
  | 0, _ => []
  | k + 1, w =>
      let nw := rotl32 1 ((w.getD 13 0) ^^^ (w.getD 8 0) ^^^ (w.getD 2 0) ^^^ (w.getD 0 0))
      nw :: sha1Expand k (w.drop 1 ++ [nw])

/-- The 80 schedule words of one block. -/
def sha1Schedule (block : List Nat) : List Nat :=
  block ++ sha1Expand 64 block

/-- The five working variables of the SHA-1 compression loop. -/
structure Sha1State where
  a : Nat
  b : Nat
  c : Nat
  d : Nat
  e : Nat
deriving Repr, DecidableEq

/-- One SHA-1 round at index `t` with schedule word `w`. -/
def sha1Round (s : Sha1State) (tw : Nat × Nat) : Sha1State :=
  let temp := w32 (rotl32 5 s.a + sha1F tw.1 s.b s.c s.d + s.e + sha1K tw.1 + tw.2)
  ⟨temp, s.a, rotl32 30 s.b, s.c, s.d⟩

/-- SHA-1 compression of one 16-word block into the chaining state. -/
def sha1Compress (h : Sha1State) (block : List Nat) : Sha1State :=
  let s := ((sha1Schedule block).enum).foldl sha1Round h
  ⟨w32 (h.a + s.a), w32 (h.b + s.b), w32 (h.c + s.c), w32 (h.d + s.d), w32 (h.e + s.e)⟩

/-- SHA-1 initial chaining state. -/
def sha1Init : Sha1State :=
  ⟨1732584193, 4023233417, 2562383102, 271733878, 3285377520⟩

/-- The 16-word blocks of a padded message. -/
def sha1Blocks (msg : List Nat) : List (List Nat) :=
  chunk16 (sha1Pad msg).length (bytesToWords (sha1Pad msg))

/-- Serialization of the final chaining state as 20 big-endian bytes. -/
def sha1Final (s : Sha1State) : List Nat :=
  beBytes 4 s.a ++ beBytes 4 s.b ++ beBytes 4 s.c ++ beBytes 4 s.d ++ beBytes 4 s.e

/-- SHA-1 digest of a byte list, as its 20 bytes. -/
def sha1 (msg : List Nat) : List Nat :=
  sha1Final ((sha1Blocks msg).foldl sha1Compress sha1Init)

/-- HMAC key normalization: a key longer than the 64-byte block is
replaced by its hash. -/
def hmacKey0 (key : List Nat) : List Nat :=
  if 64 < key.length then sha1 key else key

/-- HMAC key preparation: the normalized key, zero-padded to 64 bytes. -/
def hmacKeyPadded (key : List Nat) : List Nat :=
  hmacKey0 key ++ List.replicate (64 - (hmacKey0 key).length) 0

/-- HMAC-SHA1 (RFC 2104): `SHA1(K ⊕ opad ∥ SHA1(K ⊕ ipad ∥ msg))`. -/
def hmacSha1 (key msg : List Nat) : List Nat :=
  sha1 (((hmacKeyPadded key).map (fun b => b ^^^ 92)) ++
    sha1 (((hmacKeyPadded key).map (fun b => b ^^^ 54)) ++ msg))

/-- The 64 characters of the standard base64 alphabet. -/
def b64Char (n : Nat) : Char :=
  if n < 26 then Char.ofNat (65 + n)
  else if n < 52 then Char.ofNat (97 + (n - 26))
  else if n < 62 then Char.ofNat (48 + (n - 52))
  else if n = 62 then '+'
  else '/'

/-- Standard base64 encoding of a byte list with `=` padding, as
`base64.b64encode(...).decode()` produces. -/
def base64Encode : List Nat → String
  | b1 :: b2 :: b3 :: rest =>
      let n := (b1 * 256 + b2) * 256 + b3
      String.mk [b64Char (n / 262144), b64Char ((n / 4096) % 64),
                 b64Char ((n / 64) % 64), b64Char (n % 64)] ++ base64Encode rest
  | [b1, b2] =>
      let n := (b1 * 256 + b2) * 4
      String.mk [b64Char (n / 4096), b64Char ((n / 64) % 64), b64Char (n % 64), '=']
  | [b1] =>
      let n := b1 * 16
      String.mk [b64Char (n / 64), b64Char (n % 64), '=', '=']
  | [] => ""

/-! ## The request signer `oauth_sign`

The Python function draws `ts = str(int(time.time()))` and
`nonce = secrets.token_hex(16)` from the environment; the embedding takes
them as the explicit arguments `ts` and `nonce`.  `extra_params` is
`Option`-valued as in the source (`extra_params=None` default, normalized
by `extra_params or {}`). -/

/-- Consumer key `AK`. -/
def AK : String := "qx7UevJ9Ik8VcGTU9wHlgynna"

/-- Consumer secret `AKS`. -/
def AKS : String := "Sr6poxYJESoYctndEufjjtjXgXUGz1urinA8K8ADw0yLtcoDt6"

/-- Access token `AT`. -/
def AT : String := "2013700835654672388-HUnMlIBkv1KiSKSSjFU3m68gffRHl1"

/-- Access token secret `ATS`. -/
def ATS : String := "pYBAUzVjP4wWesaymDq4EQ3ddlcHqq7LRGoXTeZHJOJVP"

/-- The `oauth` dict literal of `oauth_sign`, in its insertion order. -/
def oauthParams (ts nonce : String) : List (String × String) :=
  [("oauth_consumer_key", AK), ("oauth_nonce", nonce),
   ("oauth_signature_method", "HMAC-SHA1"), ("oauth_timestamp", ts),
   ("oauth_token", AT), ("oauth_version", "1.0")]

/-- Embedding of `all_p = {**oauth, **(extra_params or {})}`. -/
def allParams (ts nonce : String) (extra : Option (List (String × String))) :
    List (String × String) :=
  mergeParams (oauthParams ts nonce) (extra.getD [])

/-- Embedding of the sorted, encoded, `&`-joined parameter string `ps`. -/
def paramString (l : List (String × String)) : String :=
  String.intercalate "&"
    ((sortParams l).map (fun p => percentEncode p.1 ++ "=" ++ percentEncode p.2))

/-- Embedding of the signature base string `bs`. -/
def baseString (method url ps : String) : String :=
  method ++ "&" ++ percentEncode url ++ "&" ++ percentEncode ps

/-- Embedding of the signing key `sk`. -/
def signingKey : String :=
  percentEncode AKS ++ "&" ++ percentEncode ATS

/-- The `oauth_signature` value `sig` computed by `oauth_sign` at pinned
timestamp and nonce: base64 of the HMAC-SHA1 of the base string under the
signing key. -/
def oauthSignature (ts nonce method url : String)
    (extra : Option (List (String × String))) : String :=
  base64Encode (hmacSha1 (utf8Bytes signingKey)
    (utf8Bytes (baseString method url
      (paramString (allParams ts nonce extra)))))

/-- The items of the `oauth` dict after `oauth["oauth_signature"] = sig`:
the six metadata fields in insertion order, then the signature. -/
def headerFields (ts nonce method url : String)
    (extra : Option (List (String × String))) : List (String × String) :=
  oauthParams ts nonce ++ [("oauth_signature", oauthSignature ts nonce method url extra)]

/-- Embedding of `oauth_sign`'s return value: the `Authorization` header
string assembled from the `oauth` dict items. -/
def oauth_sign (ts nonce method url : String)
    (extra : Option (List (String × String))) : String :=
  "OAuth " ++ String.intercalate ", "
    ((headerFields ts nonce method url extra).map
      (fun p => p.1 ++ "=\"" ++ percentEncode p.2 ++ "\""))

/-- State-passing view of `oauth_sign` for the frame property: the result
header together with the post-call contents of the caller's
`extra_params` dict.  Tracing the source, `extra_params` is only ever
read — once, inside `{**oauth, **(extra_params or {})}`, which builds a
fresh dict — and `oauth["oauth_signature"] = sig` writes to the signer's
own `oauth` dict, so the caller's dict is returned unchanged. -/
def oauth_signTraced (ts nonce method url : String)
    (extra : Option (List (String × String))) :
    String × Option (List (String × String)) :=
  (oauth_sign ts nonce method url extra, extra)

/-! ## Parsed JSON values

`json.loads` results are modelled by `JVal`.  Arrays and objects carry
their elements on constructor spines (`arrCons`/`objCons` chains ending
in `arrNil`/`objNil`) so that every consumer is plain structural
recursion.  Numbers are integers; the responses this tool consumes carry
ids and flags as strings and booleans, and float bodies are outside the
scope of the claims. -/

inductive JVal where
  | null
  | bool (b : Bool)
  | num (n : Int)
  | str (s : String)
  | arrNil
  | arrCons (hd tl : JVal)
  | objNil
  | objCons (key : String) (val tl : JVal)
deriving Repr, DecidableEq

/-- Python outcome of one stdlib call or handler body: a value, or a
raised exception carrying the exception kind. -/
inductive PyResult (α : Type) where
  | ok (a : α)
  | exn (kind : String)
deriving Repr, DecidableEq

/-- Printed lines of one command handler together with an exception that
escaped it, if any. -/
structure PyOut where
  lines : List String
  exn : Option String
deriving Repr, DecidableEq

/-- Python `repr` of a parsed-JSON value (mode `false`), and the
comma-prefixed rendering of the remaining elements of a list or dict
(mode `true`), as `str()` formats containers.  String repr is modelled
without escape sequences: the modelled responses contain none. -/
def pyReprM : Bool → JVal → String
  | false, .null => "None"
  | false, .bool true => "True"
  | false, .bool false => "False"
  | false, .num n => toString n
  | false, .str s => "\x27" ++ s ++ "\x27"
  | false, .arrNil => "[]"
  | false, .arrCons h t => "[" ++ pyReprM false h ++ pyReprM true t ++ "]"
  | false, .objNil => "\x7b\x7d"
  | false, .objCons k v t => "\x7b\x27" ++ k ++ "\x27: " ++ pyReprM false v ++ pyReprM true t ++ "\x7d"
  | true, .arrCons h t => ", " ++ pyReprM false h ++ pyReprM true t
  | true, .objCons k v t => ", \x27" ++ k ++ "\x27: " ++ pyReprM false v ++ pyReprM true t
  | true, _ => ""

/-- Python `repr` of a parsed-JSON value. -/
def pyRepr (v : JVal) : String :=
  pyReprM false v

/-- Python `str` of a parsed-JSON value, the conversion an f-string
applies: a `str` renders as its raw characters, every other value as its
`repr`. -/
def pyStr : JVal → String
  | .str s => s
  | v => pyRepr v

/-- Python `d[k]`-style lookup on a dict spine: first matching key. -/
def jGet : JVal → String → Option JVal
  | .objCons key v t, k => if key = k then some v else jGet t k
  | _, _ => none

/-- Python `d.get(k, default)`. -/
def jGetD (d : JVal) (k : String) (dflt : JVal) : JVal :=
  match jGet d k with
  | some v => v
  | none => dflt

/-- Whether a parsed-JSON value is a dict, i.e. has the `.get` method. -/
def jIsObj : JVal → Bool
  | .objNil => true
  | .objCons _ _ _ => true
  | _ => false

/-- Containment of one character list in another. -/
def charsContains (pat : List Char) : List Char → Bool
  | [] => decide (pat = [])
  | c :: cs => decide (pat = List.take pat.length (c :: cs)) || charsContains pat cs

/-- Python `k in v` on a parsed-JSON value: key containment for dicts,
element equality for lists, substring test for strings; on the remaining
types Python raises `TypeError`. -/
def pyIn (k : String) : JVal → PyResult Bool
  | .objNil => .ok false
  | .objCons key _ t => if key = k then .ok true else pyIn k t
  | .arrNil => .ok false
  | .arrCons h t => if h = .str k then .ok true else pyIn k t
  | .str s => .ok (charsContains k.data s.data)
  | _ => .exn "TypeError"

/-! ## A model of `json.loads`

A fuel-indexed recursive-descent parser for JSON text: literals,
integers, strings without escape sequences (a backslash fails the
parse), arrays and objects, with whitespace handling; floats and
exponents fail the parse.  `api_call` and `bio` both run
`json.loads(r.read().decode())` bare, with no surrounding
`try`/`except`. -/

/-- Leading JSON whitespace removal. -/
def skipWs : List Char → List Char
  | c :: cs =>
      if c = ' ' ∨ c = Char.ofNat 9 ∨ c = Char.ofNat 10 ∨ c = Char.ofNat 13 then skipWs cs
      else c :: cs
  | [] => []

/-- Characters of a JSON string body up to the closing quote. -/
def parseStrChars : List Char → Option (List Char × List Char)
  | [] => none
  | c :: cs =>
      if c = '"' then some ([], cs)
      else if c = Char.ofNat 92 then none
      else (parseStrChars cs).map (fun p => (c :: p.1, p.2))

/-- Longest leading run of decimal digits. -/
def takeDigits : List Char → List Char × List Char
  | [] => ([], [])
  | c :: cs =>
      if c.isDigit then
        let p := takeDigits cs
        (c :: p.1, p.2)
      else ([], c :: cs)

/-- Numeric value of a digit run. -/
def digitsVal (ds : List Char) : Nat :=
  ds.foldl (fun a c => a * 10 + (c.toNat - 48)) 0

/-- Whether the rest of the input continues a number into float or
exponent territory, which this integer-only model rejects. -/
def startsFloat : List Char → Bool
  | c :: _ => c = '.' ∨ c = 'e' ∨ c = 'E'
  | [] => false

/-- A leading JSON integer. -/
def parseNum : List Char → Option (JVal × List Char)
  | [] => none
  | c :: r =>
      if c = '-' then
        match takeDigits r with
        | ([], _) => none
        | (ds, r2) => if startsFloat r2 then none else some (.num (-(digitsVal ds : Int)), r2)
      else
        match takeDigits (c :: r) with
        | ([], _) => none
        | (ds, r2) => if startsFloat r2 then none else some (.num (digitsVal ds : Int), r2)

/-- Parse modes: one JSON value, the remaining elements of an array, or
the remaining fields of an object. -/
inductive PMode where
  | value
  | elems
  | fields

/-- The recursive-descent core, consuming fuel on every nested parse. -/
def parseJ : Nat → PMode → List Char → Option (JVal × List Char)
  | 0, _, _ => none
  | f + 1, .value, cs =>
      match skipWs cs with
      | 'n' :: 'u' :: 'l' :: 'l' :: r => some (.null, r)
      | 't' :: 'r' :: 'u' :: 'e' :: r => some (.bool true, r)
      | 'f' :: 'a' :: 'l' :: 's' :: 'e' :: r => some (.bool false, r)
      | '"' :: r =>
          match parseStrChars r with
          | some (ks, r2) => some (.str (String.mk ks), r2)
          | none => none
      | '[' :: r =>
          (match skipWs r with
           | ']' :: r2 => some (.arrNil, r2)
           | _ => parseJ f .elems r)
      | c :: r =>
          if c = Char.ofNat 123 then
            match skipWs r with
            | c2 :: r2 => if c2 = Char.ofNat 125 then some (.objNil, r2) else parseJ f .fields r
            | [] => none
          else parseNum (c :: r)
      | [] => none
  | f + 1, .elems, cs =>
      match parseJ f .value cs with
      | some (x, r) =>
          (match skipWs r with
           | ',' :: r2 =>
               (match parseJ f .elems r2 with
                | some (t, r3) => some (.arrCons x t, r3)
                | none => none)
           | ']' :: r2 => some (.arrCons x .arrNil, r2)
           | _ => none)
      | none => none
  | f + 1, .fields, cs =>
      match skipWs cs with
      | '"' :: r =>
          (match parseStrChars r with
           | some (ks, r2) =>
               (match skipWs r2 with
                | ':' :: r3 =>
                    (match parseJ f .value r3 with
                     | some (x, r4) =>
                         (match skipWs r4 with
                          | ',' :: r5 =>
                              (match parseJ f .fields r5 with
                               | some (t, r6) => some (.objCons (String.mk ks) x t, r6)
                               | none => none)
                          | c5 :: r5 =>
                              if c5 = Char.ofNat 125 then some (.objCons (String.mk ks) x .objNil, r5)
                              else none
                          | [] => none)
                     | none => none)
                | _ => none)
           | none => none)
      | _ => none

/-- Model of `json.loads`: parse one value and require only whitespace
after it. -/
def jsonParse (s : String) : Option JVal :=
  match parseJ (2 * s.data.length + 2) .value s.data with
  | some (v, r) => if skipWs r = [] then some v else none
  | none => none

/-- The parse step `data = json.loads(r.read().decode())` as it appears,
unguarded, in both `api_call` and `bio`: a body that is not valid JSON
raises `json.JSONDecodeError`, and no `try`/`except` exists to catch
it. -/
def responseParse (raw : String) : PyResult JVal :=
  match jsonParse raw with
  | some v => .ok v
  | none => .exn "json.JSONDecodeError"

/-! ## Response handling of the command handlers -/

/-- Python `d[k]` subscripting as `dm` applies it to `data["data"]`:
lookup for dicts, `KeyError` when the key is absent, `TypeError` on the
other parsed-JSON types. -/
def pySubscript : JVal → String → PyResult JVal
  | .objCons key v t, k => if key = k then .ok v else pySubscript t k
  | .objNil, _ => .exn "KeyError"
  | _, _ => .exn "TypeError"

/-- Python `d.get(k, default)` as a call: only dicts have the method. -/
def pyGetD (d : JVal) (k : String) (dflt : JVal) : PyResult JVal :=
  if jIsObj d then .ok (jGetD d k dflt) else .exn "AttributeError"

/-- The success branch of `dm`: print the sent line, then, when a
`data` field is present, the conversation line for
`data["data"].get("dm_conversation_id", "unknown")`. -/
def dmSuccess (recipient_id : String) (data : JVal) : PyOut :=
  match pyIn "data" data with
  | .exn e => ⟨["✅ DM sent to " ++ recipient_id], some e⟩
  | .ok true =>
      (match pySubscript data "data" with
       | .exn e => ⟨["✅ DM sent to " ++ recipient_id], some e⟩
       | .ok d2 =>
           match pyGetD d2 "dm_conversation_id" (.str "unknown") with
           | .exn e => ⟨["✅ DM sent to " ++ recipient_id], some e⟩
           | .ok v => ⟨["✅ DM sent to " ++ recipient_id,
                        "   Conversation: " ++ pyStr v], none⟩)
  | .ok false => ⟨["✅ DM sent to " ++ recipient_id], none⟩

/-- Rendering of the `dm` handler on the parsed response: the
`status == 201 or "data" in data` success test with Python
short-circuiting, the dedicated 403 branch, and the generic failure
branch. -/
def dmRespond (recipient_id : String) (status : Nat) (data : JVal) : PyOut :=
  if status = 201 then dmSuccess recipient_id data
  else
    match pyIn "data" data with
    | .exn e => ⟨[], some e⟩
    | .ok true => dmSuccess recipient_id data
    | .ok false =>
        if status = 403 then
          ⟨["❌ DM failed (403): No permission. Need elevated API access or user doesn\x27t allow DMs.",
            "   Details: " ++ pyStr data], none⟩
        else
          ⟨["❌ DM failed (" ++ toString status ++ "): " ++ pyStr data], none⟩

/-- The generic failure line of `dm`, the shape its `else` branch prints
for a non-201, non-403 status with no `data` field. -/
def dmGenericLines (status : Nat) (data : JVal) : List String :=
  ["❌ DM failed (" ++ toString status ++ "): " ++ pyStr data]

/-- Rendering of the `bio` handler on the parsed response:
`print(f"✅ Bio: ...")` over `data.get("description", data)`,
unconditionally; a non-dict response has no `.get` and raises. -/
def bioRespond (data : JVal) : PyOut :=
  if jIsObj data then
    ⟨["✅ Bio: " ++ pyStr (jGetD data "description" data)], none⟩
  else ⟨[], some "AttributeError"⟩

/-! ## The signer call made for each command

`api_call(method, path, body, content_type, host, form_params)` invokes
`oauth_sign(method, f"https://{host}{path}", form_params)`; every
JSON-bodied command leaves `form_params` at its `None` default, and
`bio` calls `oauth_sign` itself with the form dict. -/

/-- Arguments a command hands to `oauth_sign`. -/
structure SignerCall where
  method : String
  url : String
  extra : Option (List (String × String))
deriving Repr, DecidableEq

/-- The `oauth_sign` call `api_call` makes. -/
def api_callSignerCall (method path host : String)
    (form_params : Option (List (String × String))) : SignerCall :=
  ⟨method, "https://" ++ host ++ path, form_params⟩

/-- JSON body of `tweet`, with the optional reply reference. -/
def tweetBody (text : String) (reply_to : Option String) : JVal :=
  match reply_to with
  | none => .objCons "text" (.str text) .objNil
  | some rid =>
      .objCons "text" (.str text)
        (.objCons "reply" (.objCons "in_reply_to_tweet_id" (.str rid) .objNil) .objNil)

/-- JSON body of `like`. -/
def likeBody (tweet_id : String) : JVal :=
  .objCons "tweet_id" (.str tweet_id) .objNil

/-- JSON body of `retweet`. -/
def retweetBody (tweet_id : String) : JVal :=
  .objCons "tweet_id" (.str tweet_id) .objNil

/-- JSON body of `dm`. -/
def dmBody (recipient_id text : String) : JVal :=
  .objCons "text" (.str text)
    (.objCons "participant_ids" (.arrCons (.str recipient_id) .arrNil) .objNil)

/-- JSON body of `dm-conv`. -/
def dmConvBody (text : String) : JVal :=
  .objCons "text" (.str text) .objNil

/-- Signer call of `tweet` (and `reply`). -/
def tweetSignerCall (text : String) (reply_to : Option String) : SignerCall :=
  api_callSignerCall "POST" "/2/tweets" "api.twitter.com" none

/-- Signer call of `like`. -/
def likeSignerCall (tweet_id : String) : SignerCall :=
  api_callSignerCall "POST" "/2/users/2013700835654672388/likes" "api.twitter.com" none

/-- Signer call of `retweet`. -/
def retweetSignerCall (tweet_id : String) : SignerCall :=
  api_callSignerCall "POST" "/2/users/2013700835654672388/retweets" "api.twitter.com" none

/-- Signer call of `delete`. -/
def deleteSignerCall (tweet_id : String) : SignerCall :=
  api_callSignerCall "DELETE" ("/2/tweets/" ++ tweet_id) "api.twitter.com" none

/-- Signer call of `dm`. -/
def dmSignerCall (recipient_id text : String) : SignerCall :=
  api_callSignerCall "POST" "/2/dm_conversations" "api.twitter.com" none

/-- Signer call of `dm-conv`. -/
def dmConvSignerCall (conversation_id text : String) : SignerCall :=
  api_callSignerCall "POST" ("/2/dm_conversations/" ++ conversation_id ++ "/messages")
    "api.twitter.com" none

/-- Signer call of `bio`: `oauth_sign` invoked directly with the
form-field dict `\x7b"description": text\x7d`. -/
def bioSignerCall (text : String) : SignerCall :=
  ⟨"POST", "https://api.twitter.com/1.1/account/update_profile.json",
   some [("description", text)]⟩

/-! ## The `__main__` dispatcher -/

/-- Outcome of the `__main__` block before any network activity: the
usage text with an exit code, an uncaught `IndexError` from
`sys.argv[i]`, the invocation of a handler with its extracted
arguments, or the unknown-command report (which prints the usage text
but falls off the end of the script with exit code 0). -/
inductive Dispatch where
  | usage (exitCode : Nat)
  | indexError
  | invoke (cmd : String) (args : List String)
  | unknown (cmd : String)
deriving Repr, DecidableEq

/-- The `__main__` dispatcher over `sys.argv` (program name included):
the `len(sys.argv) < 2` usage guard, then the `cmd` comparison chain,
each branch indexing `sys.argv` in the evaluation order of the source
(`reply` reads `sys.argv[3]` before `sys.argv[2]`). -/
def dispatch : List String → Dispatch
  | [] => .usage 1
  | [_] => .usage 1
  | _ :: cmd :: rest =>
      if cmd = "tweet" then
        match rest.get? 0 with
        | some t => .invoke "tweet" [t]
        | none => .indexError
      else if cmd = "reply" then
        match rest.get? 1 with
        | some t =>
            (match rest.get? 0 with
             | some rid => .invoke "reply" [rid, t]
             | none => .indexError)
        | none => .indexError
      else if cmd = "like" then
        match rest.get? 0 with
        | some i => .invoke "like" [i]
        | none => .indexError
      else if cmd = "retweet" then
        match rest.get? 0 with
        | some i => .invoke "retweet" [i]
        | none => .indexError
      else if cmd = "delete" then
        match rest.get? 0 with
        | some i => .invoke "delete" [i]
        | none => .indexError
      else if cmd = "bio" then
        match rest.get? 0 with
        | some t => .invoke "bio" [t]
        | none => .indexError
      else if cmd = "dm" then
        match rest.get? 0 with
        | some u =>
            (match rest.get? 1 with
             | some t => .invoke "dm" [u, t]
             | none => .indexError)
        | none => .indexError
      else if cmd = "dm-conv" then
        match rest.get? 0 with
        | some c =>
            (match rest.get? 1 with
             | some t => .invoke "dm-conv" [c, t]
             | none => .indexError)
        | none => .indexError
      else .unknown cmd

/-- Number of `sys.argv` entries each recognized command reads: the
program name, the command word, and its positional arguments. -/
def requiredArgc (cmd : String) : Option Nat :=
  if cmd = "tweet" then some 3
  else if cmd = "reply" then some 4
  else if cmd = "like" then some 3
  else if cmd = "retweet" then some 3
  else if cmd = "delete" then some 3
  else if cmd = "bio" then some 3
  else if cmd = "dm" then some 4
  else if cmd = "dm-conv" then some 4
  else none

/-- The ordering property the spec asserts of the normalized parameter
list, stated from the spec's words for comparison with the code's
order: adjacent entries appear in nondecreasing order of
percent-ENCODED key. -/
def sortedByEncodedKey : List (String × String) → Bool
  | p :: q :: rest =>
      (!strLt (percentEncode q.1) (percentEncode p.1)) && sortedByEncodedKey (q :: rest)
  | _ => true

/-! ## Literal intermediate values for the C1 reference-vector check

The pinned freshness inputs, the byte-level intermediates of the HMAC
pipeline at those inputs, and the per-block SHA-1 chaining states, each
established by kernel evaluation below. -/

/-- Pinned timestamp for the reference-vector check. -/
def ts0 : String := "1700000000"

/-- Pinned nonce for the reference-vector check. -/
def nonce0 : String := "00112233445566778899aabbccddeeff"

/-- The sorted, encoded parameter string at the pinned inputs. -/
def psLit : String :=
  "oauth_consumer_key=qx7UevJ9Ik8VcGTU9wHlgynna&oauth_nonce=00112233445566778899aabbccddeeff&oauth_signature_method=HMAC-SHA1&oauth_timestamp=1700000000&oauth_token=2013700835654672388-HUnMlIBkv1KiSKSSjFU3m68gffRHl1&oauth_version=1.0"

/-- The signature base string at the pinned inputs. -/
def bsLit : String :=
  "POST&https%3A%2F%2Fapi.example.com%2F2%2Ftweets&oauth_consumer_key%3Dqx7UevJ9Ik8VcGTU9wHlgynna%26oauth_nonce%3D00112233445566778899aabbccddeeff%26oauth_signature_method%3DHMAC-SHA1%26oauth_timestamp%3D1700000000%26oauth_token%3D2013700835654672388-HUnMlIBkv1KiSKSSjFU3m68gffRHl1%26oauth_version%3D1.0"

/-- UTF-8 bytes of the signing key -/
def keyLit : List Nat :=
  [83, 114, 54, 112, 111, 120, 89, 74, 69, 83, 111, 89, 99, 116, 110, 100, 69, 117, 102, 106, 106, 116, 106, 88, 103, 88, 85, 71, 122, 49, 117, 114, 105, 110, 65, 56, 75, 56, 65, 68, 119, 48, 121, 76, 116, 99, 111, 68, 116, 54, 38, 112, 89, 66, 65, 85, 122, 86, 106, 80, 52, 119, 87, 101, 115, 97, 121, 109, 68, 113, 52, 69, 81, 51, 100, 100, 108, 99, 72, 113, 113, 55, 76, 82, 71, 111, 88, 84, 101, 90, 72, 74, 79, 74, 86, 80]

/-- UTF-8 bytes of the base string at the pinned inputs -/
def msgLit : List Nat :=
  [80, 79, 83, 84, 38, 104, 116, 116, 112, 115, 37, 51, 65, 37, 50, 70, 37, 50, 70, 97, 112, 105, 46, 101, 120, 97, 109, 112, 108, 101, 46, 99, 111, 109, 37, 50, 70, 50, 37, 50, 70, 116, 119, 101, 101, 116, 115, 38, 111, 97, 117, 116, 104, 95, 99, 111, 110, 115, 117, 109, 101, 114, 95, 107, 101, 121, 37, 51, 68, 113, 120, 55, 85, 101, 118, 74, 57, 73, 107, 56, 86, 99, 71, 84, 85, 57, 119, 72, 108, 103, 121, 110, 110, 97, 37, 50, 54, 111, 97, 117, 116, 104, 95, 110, 111, 110, 99, 101, 37, 51, 68, 48, 48, 49, 49, 50, 50, 51, 51, 52, 52, 53, 53, 54, 54, 55, 55, 56, 56, 57, 57, 97, 97, 98, 98, 99, 99, 100, 100, 101, 101, 102, 102, 37, 50, 54, 111, 97, 117, 116, 104, 95, 115, 105, 103, 110, 97, 116, 117, 114, 101, 95, 109, 101, 116, 104, 111, 100, 37, 51, 68, 72, 77, 65, 67, 45, 83, 72, 65, 49, 37, 50, 54, 111, 97, 117, 116, 104, 95, 116, 105, 109, 101, 115, 116, 97, 109, 112, 37, 51, 68, 49, 55, 48, 48, 48, 48, 48, 48, 48, 48, 37, 50, 54, 111, 97, 117, 116, 104, 95, 116, 111, 107, 101, 110, 37, 51, 68, 50, 48, 49, 51, 55, 48, 48, 56, 51, 53, 54, 53, 52, 54, 55, 50, 51, 56, 56, 45, 72, 85, 110, 77, 108, 73, 66, 107, 118, 49, 75, 105, 83, 75, 83, 83, 106, 70, 85, 51, 109, 54, 56, 103, 102, 102, 82, 72, 108, 49, 37, 50, 54, 111, 97, 117, 116, 104, 95, 118, 101, 114, 115, 105, 111, 110, 37, 51, 68, 49, 46, 48]

/-- Block 1 of the hashed-down HMAC key -/
def kB1 : List Nat :=
  [1399993968, 1870158154, 1163095897, 1668574820, 1165321834, 1786014296, 1733842247, 2050061682, 1768833336, 1261977924, 1999665484, 1952673604, 1949705840, 1497514325, 2052483664, 880236389]

/-- Block 2 of the hashed-down HMAC key -/
def kB2 : List Nat :=
  [1935767917, 1148269637, 1362322532, 1818445937, 1899449426, 1198479444, 1700415562, 1330271824, 2147483648, 0, 0, 0, 0, 0, 0, 768]

/-- Chaining state after block 1 of the key hash -/
def kS1 : Sha1State :=
  ⟨141714583, 1858186776, 3222265618, 4085929063, 2318624821⟩

/-- Chaining state after block 2 of the key hash -/
def kS2 : Sha1State :=
  ⟨418389121, 3435148127, 279625142, 1086342677, 1187776299⟩

/-- SHA-1 digest of the 96-byte signing key -/
def keyDigestLit : List Nat :=
  [24, 240, 28, 129, 204, 192, 51, 95, 16, 170, 189, 182, 64, 192, 70, 21, 70, 204, 7, 43]

/-- The padded HMAC key block -/
def kpLit : List Nat :=
  [24, 240, 28, 129, 204, 192, 51, 95, 16, 170, 189, 182, 64, 192, 70, 21, 70, 204, 7, 43, 0, 0, 0, 0, 0, 0, 0, 0, 0, 0, 0, 0, 0, 0, 0, 0, 0, 0, 0, 0, 0, 0, 0, 0, 0, 0, 0, 0, 0, 0, 0, 0, 0, 0, 0, 0, 0, 0, 0, 0, 0, 0, 0, 0]

/-- The inner HMAC message: ipad-masked key followed by the base string bytes -/
def innerLit : List Nat :=
  [46, 198, 42, 183, 250, 246, 5, 105, 38, 156, 139, 128, 118, 246, 112, 35, 112, 250, 49, 29, 54, 54, 54, 54, 54, 54, 54, 54, 54, 54, 54, 54, 54, 54, 54, 54, 54, 54, 54, 54, 54, 54, 54, 54, 54, 54, 54, 54, 54, 54, 54, 54, 54, 54, 54, 54, 54, 54, 54, 54, 54, 54, 54, 54, 80, 79, 83, 84, 38, 104, 116, 116, 112, 115, 37, 51, 65, 37, 50, 70, 37, 50, 70, 97, 112, 105, 46, 101, 120, 97, 109, 112, 108, 101, 46, 99, 111, 109, 37, 50, 70, 50, 37, 50, 70, 116, 119, 101, 101, 116, 115, 38, 111, 97, 117, 116, 104, 95, 99, 111, 110, 115, 117, 109, 101, 114, 95, 107, 101, 121, 37, 51, 68, 113, 120, 55, 85, 101, 118, 74, 57, 73, 107, 56, 86, 99, 71, 84, 85, 57, 119, 72, 108, 103, 121, 110, 110, 97, 37, 50, 54, 111, 97, 117, 116, 104, 95, 110, 111, 110, 99, 101, 37, 51, 68, 48, 48, 49, 49, 50, 50, 51, 51, 52, 52, 53, 53, 54, 54, 55, 55, 56, 56, 57, 57, 97, 97, 98, 98, 99, 99, 100, 100, 101, 101, 102, 102, 37, 50, 54, 111, 97, 117, 116, 104, 95, 115, 105, 103, 110, 97, 116, 117, 114, 101, 95, 109, 101, 116, 104, 111, 100, 37, 51, 68, 72, 77, 65, 67, 45, 83, 72, 65, 49, 37, 50, 54, 111, 97, 117, 116, 104, 95, 116, 105, 109, 101, 115, 116, 97, 109, 112, 37, 51, 68, 49, 55, 48, 48, 48, 48, 48, 48, 48, 48, 37, 50, 54, 111, 97, 117, 116, 104, 95, 116, 111, 107, 101, 110, 37, 51, 68, 50, 48, 49, 51, 55, 48, 48, 56, 51, 53, 54, 53, 52, 54, 55, 50, 51, 56, 56, 45, 72, 85, 110, 77, 108, 73, 66, 107, 118, 49, 75, 105, 83, 75, 83, 83, 106, 70, 85, 51, 109, 54, 56, 103, 102, 102, 82, 72, 108, 49, 37, 50, 54, 111, 97, 117, 116, 104, 95, 118, 101, 114, 115, 105, 111, 110, 37, 51, 68, 49, 46, 48]

/-- Block 1 of the inner HMAC hash -/
def iB1 : List Nat :=
  [784738999, 4210427241, 647793536, 1995862051, 1895444765, 909522486, 909522486, 909522486, 909522486, 909522486, 909522486, 909522486, 909522486, 909522486, 909522486, 909522486]

/-- Block 2 of the inner HMAC hash -/
def iB2 : List Nat :=
  [1347375956, 644379764, 1886594355, 1092956742, 624051809, 1885941349, 2019650928, 1818570339, 1869423922, 1177691442, 1182037861, 1702130470, 1868658036, 1751081839, 1853060461, 1701994347]

/-- Block 3 of the inner HMAC hash -/
def iB3 : List Nat :=
  [1702438195, 1148287031, 1432712778, 961112888, 1449346900, 1429829448, 1818720622, 1851860274, 913269109, 1952997230, 1869505381, 624116784, 808530226, 842216244, 875902262, 909588280]

/-- Block 4 of the inner HMAC hash -/
def iB4 : List Nat :=
  [943274337, 1633837667, 1667523685, 1701209637, 842428257, 1970563167, 1936287598, 1635022194, 1700752741, 1953001316, 624116808, 1296122669, 1397244209, 624047727, 1635087464, 1601464685]

/-- Block 5 of the inner HMAC hash -/
def iB5 : List Nat :=
  [1702065249, 1836066099, 1144076080, 808464432, 808464421, 842428257, 1970563167, 1953459045, 1847931716, 842019123, 925904952, 859125301, 875968306, 859322413, 1213558349, 1816740459]

/-- Block 6 of the inner HMAC hash -/
def iB6 : List Nat :=
  [1982942057, 1397445459, 1782994227, 1832269927, 1717981768, 1815160114, 913269109, 1952997238, 1701999465, 1869489459, 1144073776, 2147483648, 0, 0, 0, 2912]

/-- Chaining state after block 1 of the inner hash -/
def iS1 : Sha1State :=
  ⟨1864800208, 3648499413, 83385502, 468307282, 3710411146⟩

/-- Chaining state after block 2 of the inner hash -/
def iS2 : Sha1State :=
  ⟨411063502, 3266713132, 1092773115, 1186311355, 2535288913⟩

/-- Chaining state after block 3 of the inner hash -/
def iS3 : Sha1State :=
  ⟨3957807332, 1388956059, 839788875, 690346756, 776256529⟩

/-- Chaining state after block 4 of the inner hash -/
def iS4 : Sha1State :=
  ⟨3371989047, 143924999, 3716012246, 2859534552, 1880475750⟩

/-- Chaining state after block 5 of the inner hash -/
def iS5 : Sha1State :=
  ⟨2031060347, 2680048844, 2857425338, 218565322, 2388794733⟩

/-- Chaining state after block 6 of the inner hash -/
def iS6 : Sha1State :=
  ⟨2294250866, 1543385298, 3789256154, 1143319014, 1612610066⟩

/-- Digest of the inner HMAC hash -/
def innerDigestLit : List Nat :=
  [136, 191, 125, 114, 91, 254, 48, 210, 225, 219, 117, 218, 68, 37, 169, 230, 96, 30, 122, 18]

/-- The outer HMAC message: opad-masked key followed by the inner digest -/
def outerLit : List Nat :=
  [68, 172, 64, 221, 144, 156, 111, 3, 76, 246, 225, 234, 28, 156, 26, 73, 26, 144, 91, 119, 92, 92, 92, 92, 92, 92, 92, 92, 92, 92, 92, 92, 92, 92, 92, 92, 92, 92, 92, 92, 92, 92, 92, 92, 92, 92, 92, 92, 92, 92, 92, 92, 92, 92, 92, 92, 92, 92, 92, 92, 92, 92, 92, 92, 136, 191, 125, 114, 91, 254, 48, 210, 225, 219, 117, 218, 68, 37, 169, 230, 96, 30, 122, 18]

/-- Block 1 of the outer HMAC hash -/
def oB1 : List Nat :=
  [1152139485, 2426171139, 1291248106, 479992393, 445668215, 1549556828, 1549556828, 1549556828, 1549556828, 1549556828, 1549556828, 1549556828, 1549556828, 1549556828, 1549556828, 1549556828]

/-- Block 2 of the outer HMAC hash -/
def oB2 : List Nat :=
  [2294250866, 1543385298, 3789256154, 1143319014, 1612610066, 2147483648, 0, 0, 0, 0, 0, 0, 0, 0, 0, 672]

/-- Chaining state after block 1 of the outer hash -/
def oS1 : Sha1State :=
  ⟨1759815817, 1119269504, 3823224, 4172284479, 1801717321⟩

/-- Chaining state after block 2 of the outer hash -/
def oS2 : Sha1State :=
  ⟨4289166352, 2165633399, 665077625, 2121405862, 38388310⟩

/-- The HMAC-SHA1 digest of the base string under the signing key -/
def sigDigestLit : List Nat :=
  [255, 167, 124, 16, 129, 20, 241, 119, 39, 164, 71, 121, 126, 114, 21, 166, 2, 73, 194, 86]

set_option maxRecDepth 3000

/-! ## Evaluation lemmas for the reference-vector check -/

/-- Block decomposition of the k-stage message. -/
lemma k_blocks : sha1Blocks keyLit = [kB1, kB2] := by decide

/-- Compression step 1 of the k-stage hash. -/
lemma k_c1 : sha1Compress sha1Init kB1 = kS1 := by decide

/-- Compression step 2 of the k-stage hash. -/
lemma k_c2 : sha1Compress kS1 kB2 = kS2 := by decide

/-- The k-stage SHA-1 digest. -/
lemma k_hash : sha1 keyLit = keyDigestLit := by
  rw [sha1, k_blocks]; simp only [List.foldl]; rw [k_c1, k_c2]; decide

/-- Block decomposition of the i-stage message. -/
lemma i_blocks : sha1Blocks innerLit = [iB1, iB2, iB3, iB4, iB5, iB6] := by decide

/-- Compression step 1 of the i-stage hash. -/
lemma i_c1 : sha1Compress sha1Init iB1 = iS1 := by decide

/-- Compression step 2 of the i-stage hash. -/
lemma i_c2 : sha1Compress iS1 iB2 = iS2 := by decide

/-- Compression step 3 of the i-stage hash. -/
lemma i_c3 : sha1Compress iS2 iB3 = iS3 := by decide

/-- Compression step 4 of the i-stage hash. -/
lemma i_c4 : sha1Compress iS3 iB4 = iS4 := by decide

/-- Compression step 5 of the i-stage hash. -/
lemma i_c5 : sha1Compress iS4 iB5 = iS5 := by decide

/-- Compression step 6 of the i-stage hash. -/
lemma i_c6 : sha1Compress iS5 iB6 = iS6 := by decide

/-- The i-stage SHA-1 digest. -/
lemma i_hash : sha1 innerLit = innerDigestLit := by
  rw [sha1, i_blocks]; simp only [List.foldl]; rw [i_c1, i_c2, i_c3, i_c4, i_c5, i_c6]; decide

/-- Block decomposition of the o-stage message. -/
lemma o_blocks : sha1Blocks outerLit = [oB1, oB2] := by decide

/-- Compression step 1 of the o-stage hash. -/
lemma o_c1 : sha1Compress sha1Init oB1 = oS1 := by decide

/-- Compression step 2 of the o-stage hash. -/
lemma o_c2 : sha1Compress oS1 oB2 = oS2 := by decide

/-- The o-stage SHA-1 digest. -/
lemma o_hash : sha1 outerLit = sigDigestLit := by
  rw [sha1, o_blocks]; simp only [List.foldl]; rw [o_c1, o_c2]; decide

/-- The sorted encoded parameter string at the pinned inputs. -/
lemma ps_eval : paramString (allParams ts0 nonce0 (some [])) = psLit := by decide

/-- The signature base string at the pinned inputs. -/
lemma bs_eval :
    baseString "POST" "https://api.example.com/2/tweets" psLit = bsLit := by decide

/-- Byte-level view of the base string. -/
lemma msg_eval : utf8Bytes bsLit = msgLit := by decide

/-- Byte-level view of the signing key. -/
lemma key_eval : utf8Bytes signingKey = keyLit := by decide

/-- The 96-byte signing key exceeds the HMAC block size, so it is hashed
down. -/
lemma k0_eval : hmacKey0 keyLit = keyDigestLit := by
  unfold hmacKey0
  rw [if_pos (by decide)]
  exact k_hash

/-- The padded HMAC key at the pinned inputs. -/
lemma kp_eval : hmacKeyPadded keyLit = kpLit := by
  unfold hmacKeyPadded
  rw [k0_eval]
  decide

/-- The HMAC-SHA1 digest of the base string under the signing key. -/
lemma hmac_eval : hmacSha1 keyLit msgLit = sigDigestLit := by
  unfold hmacSha1
  rw [kp_eval]
  rw [show (kpLit.map (fun b => b ^^^ 54)) ++ msgLit = innerLit by decide]
  rw [i_hash]
  rw [show (kpLit.map (fun b => b ^^^ 92)) ++ innerDigestLit = outerLit by decide]
  exact o_hash


/-! ## Order-theoretic facts about the dict-item comparison -/

/-- Trichotomy of the character-list comparison: one direction holds or
the lists are equal. -/
lemma charsLt_total (a b : List Char) :
    charsLt a b = true ∨ charsLt b a = true ∨ a = b := by
  induction a generalizing b with
  | nil => cases b with
    | nil => exact Or.inr (Or.inr rfl)
    | cons d ds => exact Or.inl rfl
  | cons c cs ih =>
    cases b with
    | nil => exact Or.inr (Or.inl rfl)
    | cons d ds =>
      rcases Nat.lt_trichotomy c.toNat d.toNat with h | h | h
      · exact Or.inl (by simp [charsLt, h])
      · have hcd : c = d := by
          rw [← Char.ofNat_toNat c, ← Char.ofNat_toNat d, h]
        subst hcd
        rcases ih ds with h2 | h2 | h2
        · exact Or.inl (by simp [charsLt, h2])
        · exact Or.inr (Or.inl (by simp [charsLt, h2]))
        · exact Or.inr (Or.inr (by rw [h2]))
      · exact Or.inr (Or.inl (by simp [charsLt, h, Nat.lt_asymm h]))

/-- Irreflexivity of the character-list comparison. -/
lemma charsLt_irrefl (a : List Char) : charsLt a a = false := by
  induction a with
  | nil => rfl
  | cons c cs ih => simp [charsLt, ih]

/-- Transitivity of the character-list comparison. -/
lemma charsLt_trans {a b c : List Char} (h1 : charsLt a b = true)
    (h2 : charsLt b c = true) : charsLt a c = true := by
  induction a generalizing b c with
  | nil =>
    cases c with
    | nil =>
      cases b with
      | nil => exact h1
      | cons y ys => simp [charsLt] at h2
    | cons z zs => rfl
  | cons x xs ih =>
    cases b with
    | nil => simp [charsLt] at h1
    | cons y ys =>
      cases c with
      | nil => simp [charsLt] at h2
      | cons z zs =>
        simp only [charsLt] at h1 h2 ⊢
        rcases Nat.lt_trichotomy x.toNat y.toNat with hxy | hxy | hxy <;>
          rcases Nat.lt_trichotomy y.toNat z.toNat with hyz | hyz | hyz
        · simp [Nat.lt_trans hxy hyz]
        · simp [hyz ▸ hxy]
        · simp [hyz, Nat.lt_asymm hyz] at h2
        · simp [hxy ▸ hyz]
        · have hxz : ¬ x.toNat < z.toNat := by omega
          have hzx : ¬ z.toNat < x.toNat := by omega
          simp only [hxy, Nat.lt_irrefl, if_false, if_neg (by omega : ¬ x.toNat < y.toNat)] at h1
          simp only [hyz, Nat.lt_irrefl, if_false, if_neg (by omega : ¬ y.toNat < z.toNat)] at h2
          simp [hxz, hzx, ih h1 h2]
        · simp [hyz, Nat.lt_asymm hyz] at h2
        · simp [hxy, Nat.lt_asymm hxy] at h1
        · simp [hxy, Nat.lt_asymm hxy] at h1
        · simp [hxy, Nat.lt_asymm hxy] at h1

/-- Asymmetry of the character-list comparison. -/
lemma charsLt_asymm {a b : List Char} (h : charsLt a b = true) :
    charsLt b a = false := by
  by_contra hc
  have h2 : charsLt b a = true := by
    cases hba : charsLt b a with
    | true => rfl
    | false => exact absurd hba hc
  have := charsLt_trans h h2
  rw [charsLt_irrefl] at this
  exact Bool.false_ne_true this

/-- Totality of the dict-item order. -/
instance : IsTotal (String × String) pairLE where
  total p q := by
    unfold pairLE pairLeB strLt
    rcases charsLt_total p.1.data q.1.data with h | h | h
    · exact Or.inl (by simp [h])
    · exact Or.inr (by simp [h])
    · rcases charsLt_total p.2.data q.2.data with h2 | h2 | h2
      · exact Or.inl (by simp [h, charsLt_irrefl, charsLt_asymm h2])
      · exact Or.inr (by simp [h, charsLt_irrefl, charsLt_asymm h2])
      · exact Or.inl (by simp [h, h2, charsLt_irrefl])

/-- Transitivity of the dict-item order. -/
instance : IsTrans (String × String) pairLE where
  trans p q r h1 h2 := by
    unfold pairLE pairLeB strLt at h1 h2 ⊢
    by_cases hpq : charsLt p.1.data q.1.data = true
    · by_cases hqr : charsLt q.1.data r.1.data = true
      · simp [charsLt_trans hpq hqr]
      · rcases charsLt_total q.1.data r.1.data with h | h | h
        · exact absurd h hqr
        · simp [hqr, h] at h2
        · simp [h ▸ hpq]
    · simp only [hpq, if_false] at h1
      by_cases hqp : charsLt q.1.data p.1.data = true
      · simp [hqp] at h1
      · simp only [hqp, if_false] at h1
        rcases charsLt_total p.1.data q.1.data with h | h | h
        · exact absurd h hpq
        · exact absurd h hqp
        · by_cases hqr : charsLt q.1.data r.1.data = true
          · simp [h ▸ hqr]
          · simp only [hqr, if_false] at h2
            by_cases hrq : charsLt r.1.data q.1.data = true
            · simp [hrq] at h2
            · simp only [hrq, if_false] at h2
              rcases charsLt_total q.1.data r.1.data with h3 | h3 | h3
              · exact absurd h3 hqr
              · exact absurd h3 hrq
              · rw [h, h3]
                simp only [charsLt_irrefl, Bool.false_eq_true, if_false]
                simp only [Bool.false_eq_true, if_false, Bool.not_eq_true'] at h1 h2 ⊢
                by_cases hvr : charsLt r.2.data p.2.data = true
                · rcases charsLt_total r.2.data q.2.data with h4 | h4 | h4
                  · exact absurd h4 (by simp [h2])
                  · exact absurd (charsLt_trans h4 hvr) (by simp [h1])
                  · exact absurd (h4 ▸ hvr) (by simp [h1])
                · simpa using hvr


/-! ## Claim theorems -/

/-- C1: for method `POST`, url `https://api.example.com/2/tweets`, empty
`extra_params`, and the pinned timestamp `1700000000` and nonce
`00112233445566778899aabbccddeeff`, `oauth_sign` computes
`oauth_signature` as the base64 encoding of the HMAC-SHA1 digest of the
base string `METHOD&percent_encode(url)&percent_encode(sorted_param_string)`
keyed by `percent_encode(consumer_secret)&percent_encode(token_secret)`,
and the result equals the precomputed reference value
`/6d8EIEU8XcnpEd5fnIVpgJJwlY=`. -/
theorem oauth_sign_reference_vector :
    oauthSignature ts0 nonce0 "POST" "https://api.example.com/2/tweets" (some []) =
      base64Encode (hmacSha1 (utf8Bytes signingKey)
        (utf8Bytes (baseString "POST" "https://api.example.com/2/tweets"
          (paramString (allParams ts0 nonce0 (some [])))))) ∧
    oauthSignature ts0 nonce0 "POST" "https://api.example.com/2/tweets" (some []) =
      "/6d8EIEU8XcnpEd5fnIVpgJJwlY=" := by
  refine ⟨rfl, ?_⟩
  unfold oauthSignature
  rw [ps_eval, bs_eval, msg_eval, key_eval, hmac_eval]
  decide



/-- C2 counterexample: at the parameter mapping adding keys `-` and `/`
to the OAuth metadata, the code's sorted order puts `-` before `/`
although the percent-encoded key `%2F` of `/` is lexicographically
smaller than the encoding `-`; the spec's encoded-key ordering predicate
fails on the code's output. -/
theorem sort_encoded_key_counterexample :
    (sortParams (allParams ts0 nonce0 (some [("-", "x"), ("/", "y")]))).map Prod.fst =
      ["-", "/", "oauth_consumer_key", "oauth_nonce", "oauth_signature_method",
       "oauth_timestamp", "oauth_token", "oauth_version"] ∧
    strLt (percentEncode "/") (percentEncode "-") = true ∧
    sortedByEncodedKey
      (sortParams (allParams ts0 nonce0 (some [("-", "x"), ("/", "y")]))) = false :=
  ⟨by decide, by decide, by decide⟩

/-- C2 amended: the parameter-normalization step of `oauth_sign`
percent-encodes every key and value with exactly the RFC 3986 unreserved
bytes exempt, sorts the entries lexicographically by the RAW key (ties
broken by raw value), and joins the encoded pairs as `key=value` with
`&`. -/
theorem param_normalization_amended (l : List (String × String)) :
    List.Sorted pairLE (sortParams l) ∧
    (sortParams l).Perm l ∧
    paramString l = String.intercalate "&"
      ((sortParams l).map (fun p => percentEncode p.1 ++ "=" ++ percentEncode p.2)) ∧
    (∀ b : Nat, percentEncodeByte b = String.singleton (Char.ofNat b) ↔ isUnreserved b = true) := by
  refine ⟨List.sorted_insertionSort pairLE l, List.perm_insertionSort pairLE l, rfl, ?_⟩
  intro b
  constructor
  · intro h
    by_cases hu : isUnreserved b = true
    · exact hu
    · exfalso
      unfold percentEncodeByte at h
      rw [if_neg hu] at h
      have hd := congrArg String.data h
      simp [String.singleton] at hd
  · intro h
    unfold percentEncodeByte
    rw [if_pos h]

/-- C3: signing is deterministic once the ambient timestamp and nonce
are fixed: the header, the sorted encoded parameter list, and the
signature value of two runs on the same inputs coincide.  In the
embedding the freshness tuple is an explicit argument, so determinism
is purity of the signing function. -/
theorem oauth_sign_deterministic (ts nonce method url : String)
    (extra : Option (List (String × String))) :
    oauth_sign ts nonce method url extra = oauth_sign ts nonce method url extra ∧
    sortParams (allParams ts nonce extra) = sortParams (allParams ts nonce extra) ∧
    oauthSignature ts nonce method url extra = oauthSignature ts nonce method url extra :=
  ⟨rfl, rfl, rfl⟩

/-- C4: with the same pinned nonce and timestamp the two headers are
identical, and with two different nonces the seven header fields agree
everywhere except positions 1 (`oauth_nonce`) and 6
(`oauth_signature`). -/
theorem oauth_sign_nonce_frame (ts n1 n2 method url : String)
    (extra : Option (List (String × String))) :
    (n1 = n2 → oauth_sign ts n1 method url extra = oauth_sign ts n2 method url extra) ∧
    (headerFields ts n1 method url extra).length = 7 ∧
    (∀ i : Nat, i < 7 → i ≠ 1 → i ≠ 6 →
      (headerFields ts n1 method url extra).get? i =
        (headerFields ts n2 method url extra).get? i) ∧
    (headerFields ts n1 method url extra).get? 1 = some ("oauth_nonce", n1) ∧
    (headerFields ts n1 method url extra).get? 6 =
      some ("oauth_signature", oauthSignature ts n1 method url extra) := by
  refine ⟨fun h => by rw [h], by simp [headerFields, oauthParams], ?_,
    by simp [headerFields, oauthParams], by simp [headerFields, oauthParams]⟩
  intro i hlt h1 h6
  interval_cases i
  · simp only [headerFields, oauthParams, List.cons_append, List.nil_append, List.get?]
  · exact absurd rfl h1
  · simp only [headerFields, oauthParams, List.cons_append, List.nil_append, List.get?]
  · simp only [headerFields, oauthParams, List.cons_append, List.nil_append, List.get?]
  · simp only [headerFields, oauthParams, List.cons_append, List.nil_append, List.get?]
  · simp only [headerFields, oauthParams, List.cons_append, List.nil_append, List.get?]
  · exact absurd rfl h6

/-- C4 witness: at two concrete distinct nonces, field 0 of the two
headers coincides. -/
theorem oauth_sign_nonce_frame_witness :
    (headerFields "1700000000" "aa" "POST" "https://api.example.com" none).get? 0 =
      (headerFields "1700000000" "bb" "POST" "https://api.example.com" none).get? 0 :=
  (oauth_sign_nonce_frame "1700000000" "aa" "bb" "POST" "https://api.example.com"
    none).2.2.1 0 (by decide) (by decide) (by decide)

/-- C5: the form-encoded `bio` call passes exactly the `description`
form field to the signer, every JSON-bodied call passes `None`, and
with no extra parameters the signed parameter set is exactly the six
OAuth metadata fields — no part of a JSON body enters the signature
base. -/
theorem signer_param_sets (text tid uid cid : String) (reply_to : Option String) :
    (bioSignerCall text).extra = some [("description", text)] ∧
    (tweetSignerCall text reply_to).extra = none ∧
    (likeSignerCall tid).extra = none ∧
    (retweetSignerCall tid).extra = none ∧
    (deleteSignerCall tid).extra = none ∧
    (dmSignerCall uid text).extra = none ∧
    (dmConvSignerCall cid text).extra = none ∧
    (∀ ts nonce, allParams ts nonce none = oauthParams ts nonce) :=
  ⟨rfl, rfl, rfl, rfl, rfl, rfl, rfl, fun ts nonce => rfl⟩

/-- C6 counterexample: a response body that is not valid JSON makes the
bare `json.loads` of `api_call` raise `json.JSONDecodeError`; nothing
falls back to raw text and no failure message is produced. -/
theorem response_parse_counterexample :
    jsonParse "not json" = none ∧
    responseParse "not json" = PyResult.exn "json.JSONDecodeError" :=
  ⟨by decide, by decide⟩

/-- C6 amended: for every response body that is not valid JSON, the
unguarded `json.loads` in `api_call` (and in `bio`) raises
`json.JSONDecodeError`, which propagates and terminates the invocation;
there is no fallback to raw text and no surfaced failure message. -/
theorem response_parse_raises (raw : String) (h : jsonParse raw = none) :
    responseParse raw = PyResult.exn "json.JSONDecodeError" := by
  unfold responseParse
  rw [h]

/-- C6 witness: the amended behaviour at the concrete body
`not json`. -/
theorem response_parse_raises_witness :
    jsonParse "not json" = none ∧
    responseParse "not json" = PyResult.exn "json.JSONDecodeError" :=
  ⟨by decide, response_parse_raises "not json" (by decide)⟩

/-- C7 counterexample: on the well-formed response
`\x7b"errors": "forbidden"\x7d`, which lacks a `description` field,
`bio` still prints a `✅ Bio:` success line carrying the whole parsed
response, and prints no failure line. -/
theorem bio_success_line_counterexample :
    jGet (JVal.objCons "errors" (JVal.str "forbidden") JVal.objNil) "description" = none ∧
    bioRespond (JVal.objCons "errors" (JVal.str "forbidden") JVal.objNil) =
      ⟨["✅ Bio: \x7b\x27errors\x27: \x27forbidden\x27\x7d"], none⟩ :=
  ⟨by decide, by decide⟩

/-- C7 amended: for every dict response, `bio` prints exactly one line,
the `✅ Bio:` success line over `data.get("description", data)`,
whether or not the updated description is present; no failure branch
exists. -/
theorem bio_always_success_line (data : JVal) (h : jIsObj data = true) :
    bioRespond data = ⟨["✅ Bio: " ++ pyStr (jGetD data "description" data)], none⟩ := by
  unfold bioRespond
  rw [if_pos h]

/-- C7 witness: the amended behaviour at a concrete response carrying a
description. -/
theorem bio_always_success_line_witness :
    jIsObj (JVal.objCons "description" (JVal.str "hi") JVal.objNil) = true ∧
    bioRespond (JVal.objCons "description" (JVal.str "hi") JVal.objNil) =
      ⟨["✅ Bio: hi"], none⟩ :=
  ⟨by decide,
   (bio_always_success_line (JVal.objCons "description" (JVal.str "hi") JVal.objNil)
     (by decide)).trans (by decide)⟩

/-- C8: a `dm` response with HTTP status 403 whose body fails both
success conditions produces the permission-denied-specific two-line
failure message, which is distinct from the generic single-line failure
message the `else` branch would print for the same input. -/
theorem dm_403_permission_message (recipient_id : String) (status : Nat) (data : JVal)
    (hst : status = 403) (hnd : pyIn "data" data = PyResult.ok false) :
    dmRespond recipient_id status data =
      ⟨["❌ DM failed (403): No permission. Need elevated API access or user doesn\x27t allow DMs.",
        "   Details: " ++ pyStr data], none⟩ ∧
    dmRespond recipient_id status data ≠ ⟨dmGenericLines status data, none⟩ := by
  subst hst
  have hmain : dmRespond recipient_id 403 data =
      ⟨["❌ DM failed (403): No permission. Need elevated API access or user doesn\x27t allow DMs.",
        "   Details: " ++ pyStr data], none⟩ := by
    unfold dmRespond
    rw [if_neg (by decide : ¬ (403 : Nat) = 201), hnd, if_pos rfl]
  refine ⟨hmain, ?_⟩
  rw [hmain]
  intro hEq
  have hl := congrArg PyOut.lines hEq
  simp [dmGenericLines] at hl

/-- C8 witness: the 403 message at a concrete recipient and response
body. -/
theorem dm_403_permission_message_witness :
    pyIn "data" (JVal.objCons "detail" (JVal.str "x") JVal.objNil) = PyResult.ok false ∧
    dmRespond "123" 403 (JVal.objCons "detail" (JVal.str "x") JVal.objNil) =
      ⟨["❌ DM failed (403): No permission. Need elevated API access or user doesn\x27t allow DMs.",
        "   Details: \x7b\x27detail\x27: \x27x\x27\x7d"], none⟩ :=
  ⟨by decide,
   ((dm_403_permission_message "123" 403 (JVal.objCons "detail" (JVal.str "x") JVal.objNil)
     rfl (by decide)).1).trans (by decide)⟩

/-- C9: `oauth_sign` never mutates its `extra_params` argument — the
traced post-state equals the argument — and `oauth_signature` is added
only to the signer's own `oauth` dict, as its seventh field. -/
theorem oauth_sign_preserves_extra_params (ts nonce method url : String)
    (extra : Option (List (String × String))) :
    (oauth_signTraced ts nonce method url extra).2 = extra ∧
    headerFields ts nonce method url extra =
      oauthParams ts nonce ++
        [("oauth_signature", oauthSignature ts nonce method url extra)] :=
  ⟨rfl, rfl⟩

/-- C10: the usage text with exit code 1 appears exactly when no command
is given, and a recognized command with fewer positional arguments than
it reads ends in an uncaught `IndexError` from indexing `sys.argv`. -/
theorem dispatch_usage_and_index_error (argv : List String) :
    (dispatch argv = Dispatch.usage 1 ↔ argv.length < 2) ∧
    (∀ cmd n, requiredArgc cmd = some n → argv.get? 1 = some cmd →
      argv.length < n → dispatch argv = Dispatch.indexError) := by
  match argv with
  | [] =>
    refine ⟨by simp [dispatch], ?_⟩
    intro cmd n _ hg
    simp at hg
  | [a] =>
    refine ⟨by simp [dispatch], ?_⟩
    intro cmd n _ hg
    simp at hg
  | a :: cmd0 :: rest =>
    constructor
    · constructor
      · intro h
        exfalso
        simp only [dispatch] at h
        split_ifs at h <;> (repeat split at h) <;> exact Dispatch.noConfusion h
      · intro h
        simp only [List.length_cons] at h
        omega
    · intro cmd n hreq hg hlen
      have hc : cmd0 = cmd := by simpa using hg
      subst hc
      simp only [List.length_cons] at hlen
      simp only [requiredArgc] at hreq
      split_ifs at hreq with h1 h2 h3 h4 h5 h6 h7 h8
      · subst h1
        injection hreq with hn
        have h0n : rest[0]? = none := List.getElem?_eq_none (by omega)
        simp [dispatch, h0n]
      · subst h2
        injection hreq with hn
        have h1n : rest[1]? = none := List.getElem?_eq_none (by omega)
        simp [dispatch, h1n]
      · subst h3
        injection hreq with hn
        have h0n : rest[0]? = none := List.getElem?_eq_none (by omega)
        simp [dispatch, h0n]
      · subst h4
        injection hreq with hn
        have h0n : rest[0]? = none := List.getElem?_eq_none (by omega)
        simp [dispatch, h0n]
      · subst h5
        injection hreq with hn
        have h0n : rest[0]? = none := List.getElem?_eq_none (by omega)
        simp [dispatch, h0n]
      · subst h6
        injection hreq with hn
        have h0n : rest[0]? = none := List.getElem?_eq_none (by omega)
        simp [dispatch, h0n]
      · subst h7
        injection hreq with hn
        have h1n : rest[1]? = none := List.getElem?_eq_none (by omega)
        cases h0 : rest[0]? <;> simp [dispatch, h0, h1n]
      · subst h8
        injection hreq with hn
        have h1n : rest[1]? = none := List.getElem?_eq_none (by omega)
        cases h0 : rest[0]?
        · simp [dispatch, h0]
        · simp [dispatch, h0, h1n]

/-- C10 witness: `dm` with a single argument hits the `IndexError`, and
the one-argument invocation is not the usage case. -/
theorem dispatch_usage_and_index_error_witness :
    requiredArgc "dm" = some 4 ∧
    dispatch ["twitter-api.py", "dm", "123"] = Dispatch.indexError :=
  ⟨by decide,
   (dispatch_usage_and_index_error ["twitter-api.py", "dm", "123"]).2 "dm" 4
     (by decide) (by decide) (by decide)⟩

end TwitterApi
